import Mathlib

/-!
Verification of the Balance-Forward Compaction Engine
(`bank_balance_forward` in `src/bbf_demo.py`).

The engine is a straight-line sequence of four MongoDB bulk operations on
three collections.  We embed the collections as lists of structures and
each aggregation pipeline as a pure function on that state, translating
the documented MongoDB semantics of each stage:

* `$match {transactionDate: {$lt: t}}`  — `List.filter` on the date.
* `$group {_id: $clientId, ...}`        — one output document per distinct
  `clientId`, with `$sum` / `$min` / `$max` folds and `$addToSet`
  collecting distinct present values (a missing field contributes
  nothing to `$addToSet`).
* `$merge into compressed_transactions` — the preceding `$project` stage
  drops `_id`, so the `$merge` (which joins on the default key `_id`)
  never finds a match: the store assigns every output document a fresh
  `_id` and inserts it.  Embedded as list append.
* `$merge into ledger_line_items, whenMatched: merge, whenNotMatched:
  discard` after `$addFields {mark_for_deletion_id: m}` — updates the
  `mark_for_deletion_id` field of every matched ledger document in
  place (joined on `_id`) and touches nothing else.  Embedded as
  `List.map` with a conditional field update.
* `$out archived_items`                 — replaces the entire
  `archived_items` collection with the pipeline output.
* `delete_many {mark_for_deletion_id: m}` — removes exactly the matching
  documents and reports how many.

Timestamps are integers (seconds); `timedelta(days = d)` is `d * 86400`.
Amounts are exact rationals: per the design scope the engine runs on
whatever numeric type the store holds, and seeding is out of scope.
The fresh `ObjectId()` deletion mark is an abstract `Nat` together with,
where a claim needs it, the hypothesis that it occurs nowhere in the
initial store (freshness of `ObjectId()`).
-/

/-- A ledger document (`ledger_line_items` collection).  `id` is the
store-assigned `_id`; `mark` is the optional `mark_for_deletion_id`
field, absent until a marker stage writes it. -/
structure LineItem where
  id : Nat
  transactionDate : Int
  amount : ℚ
  clientId : String
  productId : Option String
  category : String
  status : String
  mark : Option Nat
deriving DecidableEq, Repr

/-- A per-client summary document (`compressed_transactions` collection),
as produced by the `$project` stage of `compress_pipeline`. -/
structure Summary where
  clientId : String
  compressionDate : Int
  totalAmount : ℚ
  transactionCount : Nat
  dateStart : Int
  dateEnd : Int
  products : List String
deriving DecidableEq, Repr

/-- The three collections the engine touches. -/
structure DB where
  ledger_line_items : List LineItem
  compressed_transactions : List Summary
  archived_items : List LineItem
deriving DecidableEq, Repr

/-- The result dictionary returned by `bank_balance_forward`. -/
structure BBFResult where
  compressed_count : Nat
  archived_count : Nat
  deleted_count : Nat
  remaining_count : Nat
deriving DecidableEq, Repr

/-- The spec's error taxonomy (§7).  The Python source raises none of
these; the embedding keeps the type so that claims about error behaviour
can be stated. -/
inductive BBFError where
  | invalidArgument
  | storeUnavailable
  | partialBatchFailure
  | orderingViolation
deriving DecidableEq, Repr

/-- `$match {transactionDate: {$lt: threshold_date}}`: the eligibility
predicate shared by the compress and mark pipelines. -/
def eligible (threshold_date : Int) (d : LineItem) : Bool :=
  d.transactionDate < threshold_date

/-- The distinct `clientId` values of a document list, in order of first
occurrence: the `_id` keys produced by the `$group` stage. -/
def clientIds (docs : List LineItem) : List String :=
  (docs.map (·.clientId)).dedup

/-- The documents of one `$group` bucket. -/
def groupDocs (c : String) (docs : List LineItem) : List LineItem :=
  docs.filter (fun d => d.clientId == c)

/-- `$addToSet: $productId` over a bucket: distinct present values, a
missing `productId` contributing nothing. -/
def addToSetProducts (docs : List LineItem) : List String :=
  (docs.filterMap (·.productId)).dedup

/-- `$min: $transactionDate` over a (nonempty) bucket. -/
def minDate (docs : List LineItem) : Int :=
  match docs with
  | [] => 0
  | d :: ds => ds.foldl (fun a x => min a x.transactionDate) d.transactionDate

/-- `$max: $transactionDate` over a (nonempty) bucket. -/
def maxDate (docs : List LineItem) : Int :=
  match docs with
  | [] => 0
  | d :: ds => ds.foldl (fun a x => max a x.transactionDate) d.transactionDate

/-- The `$group` + `$project` stages of `compress_pipeline` applied to
one bucket: the summary document written for client `c`. -/
def summarize (now : Int) (c : String) (docs : List LineItem) : Summary :=
  { clientId := c
    compressionDate := now
    totalAmount := (docs.map (·.amount)).sum
    transactionCount := docs.length
    dateStart := minDate docs
    dateEnd := maxDate docs
    products := addToSetProducts docs }

/-- The summary documents produced by one run of `compress_pipeline`:
one per distinct `clientId` in the eligible set. -/
def runSummaries (now threshold_date : Int) (ledger : List LineItem) : List Summary :=
  let eligibleDocs := ledger.filter (eligible threshold_date)
  (clientIds eligibleDocs).map (fun c => summarize now c (groupDocs c eligibleDocs))

/-- `db.ledger_line_items.aggregate(compress_pipeline)`:
`$match` on the date, `$group` by `clientId`, `$project`, then `$merge`
into `compressed_transactions`.  The `$project` drops `_id`, so the
`$merge` (default join key `_id`) matches nothing and every summary is
inserted. -/
def compress_pipeline (now threshold_date : Int) (s : DB) : DB :=
  { s with compressed_transactions :=
      s.compressed_transactions ++ runSummaries now threshold_date s.ledger_line_items }

/-- `db.ledger_line_items.aggregate(mark_pipeline)`:
`$match` on the date, `$addFields {mark_for_deletion_id: deletion_mark}`
(overwriting any existing value of the field), then `$merge` back into
`ledger_line_items` joined on `_id` with `whenMatched: merge`,
`whenNotMatched: discard`: each matched document is updated in place,
unmatched pipeline output is dropped, and no document is inserted or
removed. -/
def mark_pipeline (threshold_date : Int) (deletion_mark : Nat) (s : DB) : DB :=
  { s with ledger_line_items :=
      s.ledger_line_items.map (fun d =>
        if eligible threshold_date d then { d with mark := some deletion_mark } else d) }

/-- `db.ledger_line_items.aggregate(archive_pipeline)`:
`$match {mark_for_deletion_id: deletion_mark}` then `$out
archived_items`.  `$out` replaces the whole `archived_items` collection
with the pipeline output. -/
def archive_pipeline (deletion_mark : Nat) (s : DB) : DB :=
  { s with archived_items :=
      s.ledger_line_items.filter (fun d => d.mark == some deletion_mark) }

/-- `db.ledger_line_items.delete_many({mark_for_deletion_id:
deletion_mark})`: removes the matching documents, returning the new
state and `delete_result.deleted_count`. -/
def delete_marked (deletion_mark : Nat) (s : DB) : DB × Nat :=
  ({ s with ledger_line_items :=
      s.ledger_line_items.filter (fun d => !(d.mark == some deletion_mark)) },
   (s.ledger_line_items.filter (fun d => d.mark == some deletion_mark)).length)

/-- `threshold_date = datetime.now(UTC) - timedelta(days=days_threshold)`,
with timestamps in seconds. -/
def thresholdDate (now days_threshold : Int) : Int :=
  now - days_threshold * 86400

/-- The state of the run just before the DELETE stage: compress, then
mark, then archive. -/
def preDeleteState (now days_threshold : Int) (deletion_mark : Nat) (s : DB) : DB :=
  archive_pipeline deletion_mark
    (mark_pipeline (thresholdDate now days_threshold) deletion_mark
      (compress_pipeline now (thresholdDate now days_threshold) s))

/-- `bank_balance_forward(days_threshold)`: the full compaction run.
`now` is the wall clock at entry and `deletion_mark` the `ObjectId()`
generated for this run.  The Python function performs no input
validation and raises nothing; the `Except` wrapper records that no
error path exists. -/
def bank_balance_forward (now days_threshold : Int) (deletion_mark : Nat) (s : DB) :
    Except BBFError (DB × BBFResult) :=
  let s3 := preDeleteState now days_threshold deletion_mark s
  let (s4, deleted) := delete_marked deletion_mark s3
  .ok (s4,
    { compressed_count := s4.compressed_transactions.length
      archived_count := s4.archived_items.length
      deleted_count := deleted
      remaining_count := s4.ledger_line_items.length })

/-- Number of ledger documents currently carrying `m` as their
`mark_for_deletion_id`: the size of the run's deletion set. -/
def markedCount (m : Nat) (s : DB) : Nat :=
  (s.ledger_line_items.filter (fun d => d.mark == some m)).length

/-- Number of archive documents carrying `m`: the observable evidence
that ARCHIVE succeeded for this batch mark. -/
def archivedCountFor (m : Nat) (s : DB) : Nat :=
  (s.archived_items.filter (fun d => d.mark == some m)).length

/-- The mark freshness guarantee of `ObjectId()`: the run's deletion
mark occurs nowhere in the initial ledger. -/
def freshMark (m : Nat) (s : DB) : Prop :=
  ∀ d ∈ s.ledger_line_items, d.mark ≠ some m

instance (m : Nat) (s : DB) : Decidable (freshMark m s) := by
  unfold freshMark; infer_instance

/-- The spec's notion of "distinct clients summarized this run". -/
def distinctClientsThisRun (threshold_date : Int) (s : DB) : Nat :=
  (clientIds (s.ledger_line_items.filter (eligible threshold_date))).length

/-! ## Helper lemmas -/

lemma length_filter_partition (p : LineItem → Bool) (l : List LineItem) :
    (l.filter p).length + (l.filter (fun a => !(p a))).length = l.length := by
  induction l with
  | nil => rfl
  | cons a l ih => by_cases h : p a <;> simp [List.filter_cons, h] <;> omega

lemma filter_filter_self (p : LineItem → Bool) (l : List LineItem) :
    (l.filter p).filter p = l.filter p := by
  simp [List.filter_filter]

lemma foldl_min_le_init (l : List LineItem) (a : Int) :
    l.foldl (fun acc x => min acc x.transactionDate) a ≤ a := by
  induction l generalizing a with
  | nil => simp
  | cons x l ih => exact le_trans (ih _) (min_le_left _ _)

lemma foldl_min_le_mem (l : List LineItem) (a : Int) (d : LineItem) (hd : d ∈ l) :
    l.foldl (fun acc x => min acc x.transactionDate) a ≤ d.transactionDate := by
  induction l generalizing a with
  | nil => cases hd
  | cons x l ih =>
    rcases List.mem_cons.mp hd with h | h
    · exact h ▸ le_trans (foldl_min_le_init l _) (min_le_right _ _)
    · exact ih _ h

lemma foldl_min_eq_init_or_mem (l : List LineItem) (a : Int) :
    l.foldl (fun acc x => min acc x.transactionDate) a = a ∨
    ∃ d ∈ l, l.foldl (fun acc x => min acc x.transactionDate) a = d.transactionDate := by
  induction l generalizing a with
  | nil => exact Or.inl rfl
  | cons x l ih =>
    show List.foldl _ (min a x.transactionDate) l = a ∨ _
    rcases ih (min a x.transactionDate) with h | ⟨d, hd, h⟩
    · rcases min_choice a x.transactionDate with he | he
      · exact Or.inl (h.trans he)
      · exact Or.inr ⟨x, List.mem_cons_self x l, h.trans he⟩
    · exact Or.inr ⟨d, List.mem_cons_of_mem x hd, h⟩

lemma init_le_foldl_max (l : List LineItem) (a : Int) :
    a ≤ l.foldl (fun acc x => max acc x.transactionDate) a := by
  induction l generalizing a with
  | nil => simp
  | cons x l ih => exact le_trans (le_max_left _ _) (ih _)

lemma mem_le_foldl_max (l : List LineItem) (a : Int) (d : LineItem) (hd : d ∈ l) :
    d.transactionDate ≤ l.foldl (fun acc x => max acc x.transactionDate) a := by
  induction l generalizing a with
  | nil => cases hd
  | cons x l ih =>
    rcases List.mem_cons.mp hd with h | h
    · exact h ▸ le_trans (le_max_right _ _) (init_le_foldl_max l _)
    · exact ih _ h

lemma foldl_max_eq_init_or_mem (l : List LineItem) (a : Int) :
    l.foldl (fun acc x => max acc x.transactionDate) a = a ∨
    ∃ d ∈ l, l.foldl (fun acc x => max acc x.transactionDate) a = d.transactionDate := by
  induction l generalizing a with
  | nil => exact Or.inl rfl
  | cons x l ih =>
    show List.foldl _ (max a x.transactionDate) l = a ∨ _
    rcases ih (max a x.transactionDate) with h | ⟨d, hd, h⟩
    · rcases max_choice a x.transactionDate with he | he
      · exact Or.inl (h.trans he)
      · exact Or.inr ⟨x, List.mem_cons_self x l, h.trans he⟩
    · exact Or.inr ⟨d, List.mem_cons_of_mem x hd, h⟩

lemma minDate_le_mem (docs : List LineItem) (d : LineItem) (hd : d ∈ docs) :
    minDate docs ≤ d.transactionDate := by
  cases docs with
  | nil => cases hd
  | cons x l =>
    rcases List.mem_cons.mp hd with h | h
    · exact h ▸ foldl_min_le_init l _
    · exact foldl_min_le_mem l _ d h

lemma minDate_attained (docs : List LineItem) (h : docs ≠ []) :
    ∃ d ∈ docs, d.transactionDate = minDate docs := by
  cases docs with
  | nil => exact absurd rfl h
  | cons x l =>
    rcases foldl_min_eq_init_or_mem l x.transactionDate with he | ⟨d, hd, he⟩
    · exact ⟨x, List.mem_cons_self x l, he.symm⟩
    · exact ⟨d, List.mem_cons_of_mem x hd, he.symm⟩

lemma mem_le_maxDate (docs : List LineItem) (d : LineItem) (hd : d ∈ docs) :
    d.transactionDate ≤ maxDate docs := by
  cases docs with
  | nil => cases hd
  | cons x l =>
    rcases List.mem_cons.mp hd with h | h
    · exact h ▸ init_le_foldl_max l _
    · exact mem_le_foldl_max l _ d h

lemma maxDate_attained (docs : List LineItem) (h : docs ≠ []) :
    ∃ d ∈ docs, d.transactionDate = maxDate docs := by
  cases docs with
  | nil => exact absurd rfl h
  | cons x l =>
    rcases foldl_max_eq_init_or_mem l x.transactionDate with he | ⟨d, hd, he⟩
    · exact ⟨x, List.mem_cons_self x l, he.symm⟩
    · exact ⟨d, List.mem_cons_of_mem x hd, he.symm⟩

/-! ## C1 -/

/-- C1: In every run of the compaction pipeline, the DELETE stage
operates on the state `preDeleteState` produced by the ARCHIVE stage,
and at that state the archived count for the run's batch mark is at
least (in fact exactly) the marked count: ARCHIVE has observably
succeeded before any record is deleted.  The straight-line sequencing
of `bank_balance_forward` makes the DELETE-before-ARCHIVE situation
(which the spec's `OrderingViolation` guards against) unreachable, so
no run ever needs to abort. -/
theorem delete_only_after_archive_confirmed (now days_threshold : Int)
    (m : Nat) (s : DB) :
    markedCount m (preDeleteState now days_threshold m s) ≤
      archivedCountFor m (preDeleteState now days_threshold m s) ∧
    ∀ e : BBFError, bank_balance_forward now days_threshold m s ≠ .error e := by
  constructor
  · unfold preDeleteState archivedCountFor markedCount archive_pipeline
    simp [filter_filter_self]
  · intro e h
    simp [bank_balance_forward] at h

/-! ## C2 -/

/-- C2: For every initial state, one full run of the pipeline returns
counts with `remaining_count + deleted_count` equal to the ledger size
before the run, and `deleted_count = archived_count`. -/
theorem run_counts_conserved (now days_threshold : Int) (m : Nat) (s : DB) :
    ∃ s' r, bank_balance_forward now days_threshold m s = .ok (s', r) ∧
      r.remaining_count + r.deleted_count = s.ledger_line_items.length ∧
      r.deleted_count = r.archived_count := by
  refine ⟨_, _, rfl, ?_, ?_⟩
  · show ((preDeleteState now days_threshold m s).ledger_line_items.filter
        (fun d => !(d.mark == some m))).length +
      ((preDeleteState now days_threshold m s).ledger_line_items.filter
        (fun d => d.mark == some m)).length = s.ledger_line_items.length
    rw [Nat.add_comm, length_filter_partition]
    unfold preDeleteState archive_pipeline mark_pipeline compress_pipeline
    simp
  · show ((preDeleteState now days_threshold m s).ledger_line_items.filter
        (fun d => d.mark == some m)).length =
      (preDeleteState now days_threshold m s).archived_items.length
    unfold preDeleteState archive_pipeline
    simp

/-! ## C9 -/

/-- A summary document already present in `compressed_transactions`
before the run (e.g. written by an earlier run). -/
def preexistingSummary : Summary :=
  { clientId := "old", compressionDate := 0, totalAmount := 0, transactionCount := 0,
    dateStart := 0, dateEnd := 0, products := [] }

/-- An eligible ledger document for client "7". -/
def exDoc9 : LineItem :=
  { id := 1, transactionDate := 0, amount := 5, clientId := "7", productId := some "p",
    category := "Business", status := "Completed", mark := none }

/-- Initial state for the C9 counterexample: one eligible document and
one pre-existing summary. -/
def exDB9 : DB := ⟨[exDoc9], [preexistingSummary], []⟩

/-- C9 counterexample: on a store holding one pre-existing summary and
one eligible document of a single client, the run summarizes 1 distinct
client but reports `compressed_count = 2`, because the code counts the
whole `compressed_transactions` collection
(`db.compressed_transactions.count_documents({})`). -/
theorem compressed_count_counterexample :
    ∃ s' r, bank_balance_forward 100 0 1 exDB9 = .ok (s', r) ∧
      distinctClientsThisRun (thresholdDate 100 0) exDB9 = 1 ∧
      r.compressed_count = 2 ∧
      r.compressed_count ≠ distinctClientsThisRun (thresholdDate 100 0) exDB9 := by
  refine ⟨_, _, rfl, ?_, ?_, ?_⟩ <;> decide

/-- C9 (amended): `compressed_count` reported at DONE equals the total
number of documents in the Summary Store after the run — the pre-run
summary count plus one new summary per distinct client summarized this
run (the summary merge joins on the store-generated `_id`, so every run
inserts fresh documents) — and `remaining_count` equals the current
(post-run) Ledger Store size. -/
theorem compressed_count_is_store_total (now days_threshold : Int) (m : Nat) (s : DB) :
    ∃ s' r, bank_balance_forward now days_threshold m s = .ok (s', r) ∧
      r.compressed_count = s.compressed_transactions.length +
        distinctClientsThisRun (thresholdDate now days_threshold) s ∧
      r.remaining_count = s'.ledger_line_items.length := by
  refine ⟨_, _, rfl, ?_, rfl⟩
  show (preDeleteState now days_threshold m s).compressed_transactions.length = _
  unfold preDeleteState archive_pipeline mark_pipeline compress_pipeline
    runSummaries distinctClientsThisRun
  simp

/-! ## C7 -/

/-- A ledger document dated at `now = 0`. -/
def exDoc7 : LineItem :=
  { id := 1, transactionDate := 0, amount := 1, clientId := "c", productId := none,
    category := "Tax", status := "Pending", mark := none }

/-- Initial state for the C7 counterexample. -/
def exDB7 : DB := ⟨[exDoc7], [], []⟩

/-- C7 counterexample: with `days_threshold = -1` the run does NOT fail
with `InvalidArgument` — the code performs no validation.  It computes a
threshold date in the future, proceeds normally, and mutates the
stores: the single document (dated `now`) is marked, archived and
deleted. -/
theorem negative_threshold_counterexample :
    ∃ s' r, bank_balance_forward 0 (-1) 1 exDB7 = .ok (s', r) ∧
      (∀ e : BBFError, bank_balance_forward 0 (-1) 1 exDB7 ≠ .error e) ∧
      r.deleted_count = 1 ∧ s'.ledger_line_items = [] ∧
      s'.archived_items = [{ exDoc7 with mark := some 1 }] := by
  refine ⟨_, _, rfl, fun e h => by simp [bank_balance_forward] at h, ?_, ?_, ?_⟩ <;> decide

/-- C7 (amended): a negative `days_threshold` is not rejected.  The
computed threshold date lies in the future (`now + |days| · 86400`),
every record dated up to `now` is eligible, and the run completes
normally (there is no error path at all). -/
theorem negative_threshold_behavior (now days_threshold : Int) (m : Nat) (s : DB)
    (hd : days_threshold < 0) :
    now < thresholdDate now days_threshold ∧
    (∀ doc ∈ s.ledger_line_items, doc.transactionDate ≤ now →
      eligible (thresholdDate now days_threshold) doc = true) ∧
    ∃ out, bank_balance_forward now days_threshold m s = .ok out := by
  have ht : now < thresholdDate now days_threshold := by
    unfold thresholdDate; omega
  refine ⟨ht, ?_, ⟨_, rfl⟩⟩
  intro doc _ hdoc
  simp only [eligible, decide_eq_true_eq]
  unfold thresholdDate at *
  omega

/-- Witness for C7 (amended) at `now = 0`, `days_threshold = -1`. -/
theorem negative_threshold_behavior_witness :
    (-1 : Int) < 0 ∧
    ((0 : Int) < thresholdDate 0 (-1) ∧
     (∀ doc ∈ exDB7.ledger_line_items, doc.transactionDate ≤ 0 →
       eligible (thresholdDate 0 (-1)) doc = true) ∧
     ∃ out, bank_balance_forward 0 (-1) 5 exDB7 = .ok out) :=
  ⟨by decide, negative_threshold_behavior 0 (-1) 5 exDB7 (by decide)⟩

/-! ## C4 -/

/-- An eligible document already carrying a foreign batch mark (1) from
an overlapping run. -/
def staleDoc : LineItem :=
  { id := 1, transactionDate := 0, amount := 1, clientId := "c", productId := none,
    category := "Business", status := "Pending", mark := some 1 }

/-- C4 counterexample: marking with a fresh batch mark (2) does NOT
leave the foreign-marked eligible record untouched: the mark pipeline's
`$match` filters only on the date and `$addFields` overwrites
`mark_for_deletion_id` unconditionally, so the foreign mark 1 is
replaced by 2. -/
theorem stale_mark_overwritten :
    (mark_pipeline 10 2 ⟨[staleDoc], [], []⟩).ledger_line_items =
      [{ staleDoc with mark := some 2 }] ∧
    ({ staleDoc with mark := some 2 } : LineItem) ≠ staleDoc := by
  refine ⟨?_, ?_⟩ <;> decide

/-- C4 (amended): the Marker writes the fresh batch mark onto every
eligible LineItem — including records already carrying a foreign batch
mark from an overlapping run, whose mark is overwritten (there is no
stale-mark isolation) — and leaves every non-eligible record completely
untouched. -/
theorem mark_overwrites_all_eligible (t : Int) (m : Nat) (s : DB) (i : Nat)
    (h : i < s.ledger_line_items.length) :
    ∃ h' : i < (mark_pipeline t m s).ledger_line_items.length,
      (mark_pipeline t m s).ledger_line_items.get ⟨i, h'⟩ =
        if eligible t (s.ledger_line_items.get ⟨i, h⟩)
        then { s.ledger_line_items.get ⟨i, h⟩ with mark := some m }
        else s.ledger_line_items.get ⟨i, h⟩ := by
  refine ⟨by simpa [mark_pipeline] using h, ?_⟩
  simp [mark_pipeline, List.getElem_map]

/-- Witness for C4 (amended) on the foreign-marked document. -/
theorem mark_overwrites_all_eligible_witness :
    ∃ h' : 0 < (mark_pipeline 10 2 ⟨[staleDoc], [], []⟩).ledger_line_items.length,
      (mark_pipeline 10 2 ⟨[staleDoc], [], []⟩).ledger_line_items.get ⟨0, h'⟩ =
        if eligible 10 ((DB.mk [staleDoc] [] []).ledger_line_items.get ⟨0, by decide⟩)
        then { (DB.mk [staleDoc] [] []).ledger_line_items.get ⟨0, by decide⟩ with
                 mark := some 2 }
        else (DB.mk [staleDoc] [] []).ledger_line_items.get ⟨0, by decide⟩ :=
  mark_overwrites_all_eligible 10 2 ⟨[staleDoc], [], []⟩ 0 (by decide)

/-! ## C5 -/

/-- C5: ARCHIVE is idempotent: running it a second time with the same
batch mark leaves the state (in particular the Archive Store) exactly
as after one run; the resulting Archive Store content is independent of
whatever a partial prior run left in it; and when ledger `_id`s are
distinct the archive holds no duplicate entries. -/
theorem archive_idempotent (m : Nat) (s : DB) (junk : List LineItem)
    (hids : (s.ledger_line_items.map (·.id)).Nodup) :
    archive_pipeline m (archive_pipeline m s) = archive_pipeline m s ∧
    (archive_pipeline m { s with archived_items := junk }).archived_items =
      (archive_pipeline m s).archived_items ∧
    ((archive_pipeline m s).archived_items.map (·.id)).Nodup := by
  refine ⟨rfl, rfl, ?_⟩
  exact List.Nodup.sublist (List.Sublist.map _ (List.filter_sublist _)) hids

/-- Witness for C5 on a one-document store with a nonempty stale
archive. -/
theorem archive_idempotent_witness :
    (exDB7.ledger_line_items.map (·.id)).Nodup ∧
    (archive_pipeline 3 (archive_pipeline 3 exDB7) = archive_pipeline 3 exDB7 ∧
     (archive_pipeline 3 { exDB7 with archived_items := [staleDoc] }).archived_items =
       (archive_pipeline 3 exDB7).archived_items ∧
     ((archive_pipeline 3 exDB7).archived_items.map (·.id)).Nodup) :=
  ⟨by decide, archive_idempotent 3 exDB7 [staleDoc] (by decide)⟩

/-! ## C6 -/

/-- A ledger document carrying batch mark 1 (an earlier batch). -/
def docA : LineItem :=
  { id := 1, transactionDate := 0, amount := 1, clientId := "a", productId := none,
    category := "Business", status := "Completed", mark := some 1 }

/-- A ledger document carrying batch mark 2 (a later batch). -/
def docB : LineItem :=
  { id := 2, transactionDate := 0, amount := 2, clientId := "b", productId := none,
    category := "Tax", status := "Pending", mark := some 2 }

/-- Initial state for the C6 counterexample. -/
def exDB6 : DB := ⟨[docA, docB], [], []⟩

/-- C6 counterexample: ARCHIVE for batch mark 1 writes `docA`'s archive
entry; running ARCHIVE for the later batch mark 2 then REMOVES it —
`$out` replaces the whole `archived_items` collection — so archive
entries are not retained across later batches. -/
theorem archived_item_not_retained :
    (archive_pipeline 1 exDB6).archived_items = [docA] ∧
    (archive_pipeline 2 (archive_pipeline 1 exDB6)).archived_items = [docB] ∧
    docA ∉ (archive_pipeline 2 (archive_pipeline 1 exDB6)).archived_items := by
  refine ⟨?_, ?_, ?_⟩ <;> decide

/-- C6 (amended): an ArchivedLineItem persists only until the next
ARCHIVE run: after ARCHIVE with batch mark `m'`, every document in the
Archive Store carries `m'` and comes from the current ledger, so every
entry written by an earlier batch (carrying a different mark) has been
removed. -/
theorem archive_store_replaced (m' : Nat) (s : DB) (e : LineItem)
    (he : e ∈ (archive_pipeline m' s).archived_items) :
    e.mark = some m' ∧ e ∈ s.ledger_line_items := by
  simp only [archive_pipeline, List.mem_filter, beq_iff_eq] at he
  exact ⟨he.2, he.1⟩

/-- Witness for C6 (amended): `docB` survives ARCHIVE for mark 2. -/
theorem archive_store_replaced_witness :
    docB.mark = some 2 ∧ docB ∈ exDB6.ledger_line_items :=
  archive_store_replaced 2 exDB6 docB (by decide)

/-! ## C8 -/

/-- C8: with a fresh batch mark (the `ObjectId()` guarantee), no record
dated at or after the threshold date is ever marked, archived, or
deleted: after the MARK stage only documents dated before the threshold
carry the run's mark; every archived document is dated before the
threshold; and every initial document dated at or after the threshold
is still present, unchanged, in the ledger after the full run. -/
theorem threshold_protects_recent (now days_threshold : Int) (m : Nat) (s : DB)
    (hf : freshMark m s) :
    (∀ doc ∈ (mark_pipeline (thresholdDate now days_threshold) m
        (compress_pipeline now (thresholdDate now days_threshold) s)).ledger_line_items,
      doc.mark = some m → doc.transactionDate < thresholdDate now days_threshold) ∧
    (∀ s' r, bank_balance_forward now days_threshold m s = .ok (s', r) →
      (∀ e ∈ s'.archived_items, e.transactionDate < thresholdDate now days_threshold) ∧
      (∀ doc ∈ s.ledger_line_items,
        thresholdDate now days_threshold ≤ doc.transactionDate →
        doc ∈ s'.ledger_line_items)) := by
  set t := thresholdDate now days_threshold with ht
  have hmark : ∀ doc ∈ (mark_pipeline t m (compress_pipeline now t s)).ledger_line_items,
      doc.mark = some m → doc.transactionDate < t := by
    intro doc hdoc hm
    simp only [mark_pipeline, compress_pipeline, List.mem_map] at hdoc
    obtain ⟨d0, hd0, hfd⟩ := hdoc
    by_cases he : eligible t d0
    · subst hfd
      simp only [he, if_pos] at hm ⊢
      simpa [eligible] using he
    · rw [if_neg he] at hfd
      subst hfd
      exact absurd hm (hf d0 hd0)
  refine ⟨hmark, ?_⟩
  intro s' r h
  have hu : bank_balance_forward now days_threshold m s = .ok (s', r) := h
  unfold bank_balance_forward at hu
  have hs' : (delete_marked m (preDeleteState now days_threshold m s)).1 = s' :=
    congrArg Prod.fst (Except.ok.inj hu)
  rw [← hs']
  constructor
  · intro e he
    have he' : e ∈ (mark_pipeline t m (compress_pipeline now t s)).ledger_line_items ∧
        (e.mark == some m) = true := by
      simpa [delete_marked, preDeleteState, archive_pipeline, List.mem_filter] using he
    exact hmark e he'.1 (by simpa using he'.2)
  · intro doc hdoc hrecent
    have hne : eligible t doc = false := by
      simp only [eligible, decide_eq_false_iff_not, not_lt]
      exact hrecent
    have hmem : doc ∈ (mark_pipeline t m (compress_pipeline now t s)).ledger_line_items := by
      simp only [mark_pipeline, compress_pipeline, List.mem_map]
      exact ⟨doc, hdoc, by rw [hne]; simp⟩
    have hkeep : (!(doc.mark == some m)) = true := by
      simpa using hf doc hdoc
    simp only [delete_marked, preDeleteState, archive_pipeline, List.mem_filter]
    exact ⟨hmem, hkeep⟩

/-- An old (eligible) unmarked document for the C8 witness. -/
def oldDoc : LineItem :=
  { id := 1, transactionDate := -5, amount := 10, clientId := "7", productId := some "p",
    category := "Business", status := "Completed", mark := none }

/-- A recent (non-eligible) unmarked document for the C8 witness. -/
def recentDoc : LineItem :=
  { id := 2, transactionDate := 3, amount := 20, clientId := "8", productId := none,
    category := "Personal", status := "Pending", mark := none }

/-- Initial state for the C8 witness. -/
def exDB8 : DB := ⟨[oldDoc, recentDoc], [], []⟩

/-- Witness for C8 at `now = 0`, `days_threshold = 0`, mark 7 on a store
with one old and one recent document. -/
theorem threshold_protects_recent_witness :
    freshMark 7 exDB8 ∧
    ((∀ doc ∈ (mark_pipeline (thresholdDate 0 0) 7
        (compress_pipeline 0 (thresholdDate 0 0) exDB8)).ledger_line_items,
      doc.mark = some 7 → doc.transactionDate < thresholdDate 0 0) ∧
    (∀ s' r, bank_balance_forward 0 0 7 exDB8 = .ok (s', r) →
      (∀ e ∈ s'.archived_items, e.transactionDate < thresholdDate 0 0) ∧
      (∀ doc ∈ exDB8.ledger_line_items,
        thresholdDate 0 0 ≤ doc.transactionDate →
        doc ∈ s'.ledger_line_items))) :=
  ⟨by decide, threshold_protects_recent 0 0 7 exDB8 (by decide)⟩

/-! ## C10 -/

/-- C10: the MARK stage neither inserts nor removes ledger documents —
the ledger's cardinality is unchanged — and, position by position, it
preserves every field except `mark_for_deletion_id` (`id`,
`transactionDate`, `amount`, `clientId`, `productId`, `category`,
`status`); a non-eligible document is completely unchanged. -/
theorem mark_frame_effect (t : Int) (m : Nat) (s : DB) (i : Nat)
    (h : i < s.ledger_line_items.length)
    (h' : i < (mark_pipeline t m s).ledger_line_items.length) :
    (mark_pipeline t m s).ledger_line_items.length = s.ledger_line_items.length ∧
    ((mark_pipeline t m s).ledger_line_items.get ⟨i, h'⟩).id =
      (s.ledger_line_items.get ⟨i, h⟩).id ∧
    ((mark_pipeline t m s).ledger_line_items.get ⟨i, h'⟩).transactionDate =
      (s.ledger_line_items.get ⟨i, h⟩).transactionDate ∧
    ((mark_pipeline t m s).ledger_line_items.get ⟨i, h'⟩).amount =
      (s.ledger_line_items.get ⟨i, h⟩).amount ∧
    ((mark_pipeline t m s).ledger_line_items.get ⟨i, h'⟩).clientId =
      (s.ledger_line_items.get ⟨i, h⟩).clientId ∧
    ((mark_pipeline t m s).ledger_line_items.get ⟨i, h'⟩).productId =
      (s.ledger_line_items.get ⟨i, h⟩).productId ∧
    ((mark_pipeline t m s).ledger_line_items.get ⟨i, h'⟩).category =
      (s.ledger_line_items.get ⟨i, h⟩).category ∧
    ((mark_pipeline t m s).ledger_line_items.get ⟨i, h'⟩).status =
      (s.ledger_line_items.get ⟨i, h⟩).status ∧
    (eligible t (s.ledger_line_items.get ⟨i, h⟩) = false →
      (mark_pipeline t m s).ledger_line_items.get ⟨i, h'⟩ =
        s.ledger_line_items.get ⟨i, h⟩) := by
  simp only [mark_pipeline, List.get_eq_getElem, List.getElem_map, List.length_map]
  by_cases he : eligible t (s.ledger_line_items[i]) <;> simp [he]

/-- Witness for C10 on the two-document store (position 1 is
non-eligible at threshold 0). -/
theorem mark_frame_effect_witness :
    (mark_pipeline 0 7 exDB8).ledger_line_items.length =
      exDB8.ledger_line_items.length ∧
    ((mark_pipeline 0 7 exDB8).ledger_line_items.get ⟨1, by decide⟩).id =
      (exDB8.ledger_line_items.get ⟨1, by decide⟩).id ∧
    ((mark_pipeline 0 7 exDB8).ledger_line_items.get ⟨1, by decide⟩).transactionDate =
      (exDB8.ledger_line_items.get ⟨1, by decide⟩).transactionDate ∧
    ((mark_pipeline 0 7 exDB8).ledger_line_items.get ⟨1, by decide⟩).amount =
      (exDB8.ledger_line_items.get ⟨1, by decide⟩).amount ∧
    ((mark_pipeline 0 7 exDB8).ledger_line_items.get ⟨1, by decide⟩).clientId =
      (exDB8.ledger_line_items.get ⟨1, by decide⟩).clientId ∧
    ((mark_pipeline 0 7 exDB8).ledger_line_items.get ⟨1, by decide⟩).productId =
      (exDB8.ledger_line_items.get ⟨1, by decide⟩).productId ∧
    ((mark_pipeline 0 7 exDB8).ledger_line_items.get ⟨1, by decide⟩).category =
      (exDB8.ledger_line_items.get ⟨1, by decide⟩).category ∧
    ((mark_pipeline 0 7 exDB8).ledger_line_items.get ⟨1, by decide⟩).status =
      (exDB8.ledger_line_items.get ⟨1, by decide⟩).status ∧
    (eligible 0 (exDB8.ledger_line_items.get ⟨1, by decide⟩) = false →
      (mark_pipeline 0 7 exDB8).ledger_line_items.get ⟨1, by decide⟩ =
        exDB8.ledger_line_items.get ⟨1, by decide⟩) :=
  mark_frame_effect 0 7 exDB8 1 (by decide) (by decide)

/-! ## C3 -/

/-- A ledger document of the Testable-Properties scenario: client "7",
dated more than 30 days before `now = 100 · 86400`. -/
def scenarioItem (i : Nat) (a : ℚ) : LineItem :=
  { id := i, transactionDate := Int.ofNat i, amount := a, clientId := "7",
    productId := some "p", category := "Business", status := "Completed", mark := none }

/-- The five scenario line items with amounts
[100.00, -50.00, 25.00, 25.00, -10.00]. -/
def scenarioLedger : List LineItem :=
  [scenarioItem 1 100, scenarioItem 2 (-50), scenarioItem 3 25,
   scenarioItem 4 25, scenarioItem 5 (-10)]

/-- Initial state for the C3 scenario. -/
def scenarioDB : DB := ⟨scenarioLedger, [], []⟩

/-- C3: for every eligible set and every `clientId` occurring in it, the
run's aggregation writes exactly one summary for that client, whose
`totalAmount` is the exact sum of the group's amounts, whose
`transactionCount` is the group's cardinality, whose date range is the
group's min/max `transactionDate`, and whose `products` are exactly the
distinct present `productId` values; and the concrete scenario — five
eligible items for client "7" with amounts [100, -50, 25, 25, -10] —
yields the summary {clientId: "7", totalAmount: 90, transactionCount: 5},
with all five items archived and none left in the ledger for client "7". -/
theorem aggregator_summary_correct (now t : Int) (ledger : List LineItem) (c : String)
    (hc : c ∈ clientIds (ledger.filter (eligible t))) :
    ((runSummaries now t ledger).filter (fun sm => sm.clientId == c)).length = 1 ∧
    (∀ sm ∈ runSummaries now t ledger, sm.clientId = c →
      sm.totalAmount = ((groupDocs c (ledger.filter (eligible t))).map (·.amount)).sum ∧
      sm.transactionCount = (groupDocs c (ledger.filter (eligible t))).length ∧
      (∀ d ∈ groupDocs c (ledger.filter (eligible t)),
        sm.dateStart ≤ d.transactionDate ∧ d.transactionDate ≤ sm.dateEnd) ∧
      (∃ d ∈ groupDocs c (ledger.filter (eligible t)), d.transactionDate = sm.dateStart) ∧
      (∃ d ∈ groupDocs c (ledger.filter (eligible t)), d.transactionDate = sm.dateEnd) ∧
      sm.products.Nodup ∧
      (∀ p, p ∈ sm.products ↔
        ∃ d ∈ groupDocs c (ledger.filter (eligible t)), d.productId = some p)) ∧
    (∃ s' r, bank_balance_forward (100 * 86400) 30 9 scenarioDB = .ok (s', r) ∧
      (∃ sm ∈ runSummaries (100 * 86400) (thresholdDate (100 * 86400) 30) scenarioLedger,
        sm.clientId = "7" ∧ sm.totalAmount = 90 ∧ sm.transactionCount = 5) ∧
      (∀ d ∈ scenarioLedger, { d with mark := some 9 } ∈ s'.archived_items) ∧
      s'.ledger_line_items.filter (fun d => d.clientId == "7") = []) := by
  refine ⟨?_, ?_, ?_⟩
  · rw [show (runSummaries now t ledger).filter (fun sm => sm.clientId == c) =
        ((clientIds (ledger.filter (eligible t))).filter (fun c' => c' == c)).map
          (fun c' => summarize now c' (groupDocs c' (ledger.filter (eligible t)))) from
      List.filter_map ..]
    rw [List.length_map, ← List.countP_eq_length_filter]
    exact List.count_eq_one_of_mem (List.nodup_dedup _) hc
  · intro sm hsm hsmc
    obtain ⟨c', hc', hfc⟩ := List.mem_map.mp hsm
    have hcc : c' = c := by rw [← hsmc, ← hfc]; rfl
    subst hcc
    subst hfc
    have hGex : ∃ d ∈ ledger.filter (eligible t), d.clientId = c' := by
      have hm := List.mem_dedup.mp hc
      simpa using hm
    obtain ⟨d0, hd0, hcd⟩ := hGex
    have hd0G : d0 ∈ groupDocs c' (ledger.filter (eligible t)) :=
      List.mem_filter.mpr ⟨hd0, by simp [hcd]⟩
    have hGne : groupDocs c' (ledger.filter (eligible t)) ≠ [] :=
      List.ne_nil_of_mem hd0G
    refine ⟨rfl, rfl, ?_, ?_, ?_, List.nodup_dedup _, ?_⟩
    · exact fun d hd => ⟨minDate_le_mem _ d hd, mem_le_maxDate _ d hd⟩
    · exact minDate_attained _ hGne
    · exact maxDate_attained _ hGne
    · intro p
      simp [summarize, addToSetProducts, List.mem_dedup, List.mem_filterMap]
  · refine ⟨_, _, rfl, ?_, by decide, by decide⟩
    have hids : clientIds (scenarioLedger.filter
        (eligible (thresholdDate (100 * 86400) 30))) = ["7"] := by decide
    refine ⟨summarize (100 * 86400) "7" (groupDocs "7" (scenarioLedger.filter
        (eligible (thresholdDate (100 * 86400) 30)))), ?_, rfl, ?_, by decide⟩
    · show _ ∈ runSummaries (100 * 86400) (thresholdDate (100 * 86400) 30) scenarioLedger
      simp only [runSummaries]
      rw [hids]
      exact List.mem_singleton.mpr rfl
    · show ((groupDocs "7" (scenarioLedger.filter
          (eligible (thresholdDate (100 * 86400) 30)))).map (·.amount)).sum = 90
      norm_num [groupDocs, scenarioLedger, scenarioItem, eligible, thresholdDate]

/-- Witness for C3 at the scenario input: client "7" in the five-item
scenario ledger. -/
theorem aggregator_summary_correct_witness :
    "7" ∈ clientIds (scenarioLedger.filter (eligible (thresholdDate (100 * 86400) 30))) ∧
    (((runSummaries (100 * 86400) (thresholdDate (100 * 86400) 30) scenarioLedger).filter
        (fun sm => sm.clientId == "7")).length = 1 ∧
    (∀ sm ∈ runSummaries (100 * 86400) (thresholdDate (100 * 86400) 30) scenarioLedger,
      sm.clientId = "7" →
      sm.totalAmount = ((groupDocs "7" (scenarioLedger.filter
        (eligible (thresholdDate (100 * 86400) 30)))).map (·.amount)).sum ∧
      sm.transactionCount = (groupDocs "7" (scenarioLedger.filter
        (eligible (thresholdDate (100 * 86400) 30)))).length ∧
      (∀ d ∈ groupDocs "7" (scenarioLedger.filter
          (eligible (thresholdDate (100 * 86400) 30))),
        sm.dateStart ≤ d.transactionDate ∧ d.transactionDate ≤ sm.dateEnd) ∧
      (∃ d ∈ groupDocs "7" (scenarioLedger.filter
          (eligible (thresholdDate (100 * 86400) 30))),
        d.transactionDate = sm.dateStart) ∧
      (∃ d ∈ groupDocs "7" (scenarioLedger.filter
          (eligible (thresholdDate (100 * 86400) 30))),
        d.transactionDate = sm.dateEnd) ∧
      sm.products.Nodup ∧
      (∀ p, p ∈ sm.products ↔
        ∃ d ∈ groupDocs "7" (scenarioLedger.filter
          (eligible (thresholdDate (100 * 86400) 30))), d.productId = some p)) ∧
    (∃ s' r, bank_balance_forward (100 * 86400) 30 9 scenarioDB = .ok (s', r) ∧
      (∃ sm ∈ runSummaries (100 * 86400) (thresholdDate (100 * 86400) 30) scenarioLedger,
        sm.clientId = "7" ∧ sm.totalAmount = 90 ∧ sm.transactionCount = 5) ∧
      (∀ d ∈ scenarioLedger, { d with mark := some 9 } ∈ s'.archived_items) ∧
      s'.ledger_line_items.filter (fun d => d.clientId == "7") = [])) :=
  ⟨by decide,
   aggregator_summary_correct (100 * 86400) (thresholdDate (100 * 86400) 30)
     scenarioLedger "7" (by decide)⟩
